import Mathlib

/-!
Verification development for the go-owl browser automation repository.

Each definition below is a shallow embedding of one Go function of the
repository (or of a Go standard library function that the repository
calls, modelled from the documented stdlib semantics). External effects
— HTTP requests, the filesystem, child processes — are passed in as
explicit oracle values and recorded as explicit event traces, so that
the theorems can speak about which network and file operations a call
performs. The POSIX path separator is used throughout, matching the
linux and darwin builds of the source. String manipulation is carried
out on the underlying character lists with structural recursion, so
that every definition evaluates inside the kernel.
-/

set_option autoImplicit false

/-- JSON values as decoded by the Go encoding json package into a
map from strings to empty interface values. -/
inductive JVal where
  | nullV : JVal
  | boolV : Bool → JVal
  | numV : Int → JVal
  | strV : String → JVal
  | arrV : List JVal → JVal
  | objV : List (String × JVal) → JVal

/-- Lookup of a key in a decoded JSON object, mirroring Go map indexing
(a missing key yields the zero value, here modelled as none). -/
def lookupJ : List (String × JVal) → String → Option JVal
  | [], _ => none
  | (k, v) :: rest, key => if k = key then some v else lookupJ rest key

/-- Split a character list on the slash separator, mirroring the
component decomposition of a POSIX path (n separators give n plus one
components, empty components included). -/
def splitSlash : List Char → List (List Char)
  | [] => [[]]
  | c :: rest =>
    let r := splitSlash rest
    if c = '/' then [] :: r
    else
      match r with
      | h :: t => (c :: h) :: t
      | [] => [[c]]

/-- Join components with the slash separator. -/
def joinSlash : List (List Char) → List Char
  | [] => []
  | [x] => x
  | x :: xs => x ++ '/' :: joinSlash xs

/-- Boolean prefix test on character lists. -/
def listIsPrefix : List Char → List Char → Bool
  | [], _ => true
  | _ :: _, [] => false
  | a :: as, b :: bs => if a = b then listIsPrefix as bs else false

/-- Stack step of the lexical path cleaning performed by Go
filepath.Clean with the POSIX separator: one path component is processed
against the output stack (held in reverse order). Empty and dot
components are dropped, a dot-dot component pops a preceding real
component, is dropped at the root, and is kept when nothing can be
popped in a relative path. -/
def cleanStack (rooted : Bool) : List (List Char) → List (List Char) → List (List Char)
  | stack, [] => stack
  | stack, c :: rest =>
    if c = [] ∨ c = ['.'] then cleanStack rooted stack rest
    else if c = ['.', '.'] then
      match stack with
      | [] => if rooted then cleanStack rooted [] rest
              else cleanStack rooted [['.', '.']] rest
      | top :: tl =>
        if top = ['.', '.'] then cleanStack rooted (['.', '.'] :: top :: tl) rest
        else cleanStack rooted tl rest
    else cleanStack rooted (c :: stack) rest

/-- Go filepath.Clean for the POSIX separator on character lists,
modelled from the Go standard library semantics: collapse repeated
separators, drop dot elements, resolve dot-dot elements against
preceding elements, and drop dot-dot elements at the root; the empty
path cleans to a single dot. -/
def cleanChars (p : List Char) : List Char :=
  match p with
  | [] => ['.']
  | c :: _ =>
    let rooted := c = '/'
    let stack := (cleanStack rooted [] (splitSlash p)).reverse
    if rooted then '/' :: joinSlash stack
    else if stack = [] then ['.'] else joinSlash stack

/-- Go filepath.Clean for the POSIX separator. -/
def filepathClean (p : String) : String :=
  String.mk (cleanChars p.data)

/-- Go filepath.Join on two elements, modelled from the standard library
semantics: empty elements are skipped and the separator-joined
concatenation is cleaned. -/
def filepathJoin (a b : String) : String :=
  match a.data, b.data with
  | [], [] => ""
  | [], _ => String.mk (cleanChars b.data)
  | _, [] => String.mk (cleanChars a.data)
  | _, _ => String.mk (cleanChars (a.data ++ '/' :: b.data))

/-- The ZipSlip and TarSlip guard used by extractZip and extractTarGz in
the source: the joined entry path must have the cleaned destination
directory followed by the path separator as a string prefix. -/
def insideDestDir (destDir path : String) : Bool :=
  listIsPrefix (cleanChars destDir.data ++ ['/']) path.data

/-- One zip archive entry: its stored name and whether its file info
marks it as a directory (file contents are irrelevant to the guard). -/
structure ZipEntry where
  name : String
  isDir : Bool

/-- Tar entry type flags as seen by the switch in extractTarGz:
directories, regular files, and everything else (silently skipped). -/
inductive TarType where
  | dir
  | reg
  | other

/-- One tar archive entry: its header name and type flag. -/
structure TarEntry where
  name : String
  typeflag : TarType

/-- Loop of extractZip from the source: entries are walked in order, the
joined path of each entry is checked against the guard before anything
is created for it, directory entries are created as directories, and
regular entries are written. The accumulator collects the file paths
written so far (most recent first); disk writes always succeed in this
model. The result is the list of file paths written in order, and the
error, if any, that aborted the walk. -/
def extractZipLoop (destDir : String) :
    List ZipEntry → List String → List String × Option String
  | [], written => (written.reverse, none)
  | e :: rest, written =>
    let path := filepathJoin destDir e.name
    if insideDestDir destDir path then
      if e.isDir then extractZipLoop destDir rest written
      else extractZipLoop destDir rest (path :: written)
    else (written.reverse, some ("illegal file path: " ++ path))

/-- extractZip from the source, on an already opened list of entries. -/
def extractZip (entries : List ZipEntry) (destDir : String) :
    List String × Option String :=
  extractZipLoop destDir entries []

/-- Loop of extractTarGz from the source, analogous to extractZipLoop:
the guard is checked before the type switch, directory headers create
directories, regular headers write files, all other headers are
skipped. -/
def extractTarGzLoop (destDir : String) :
    List TarEntry → List String → List String × Option String
  | [], written => (written.reverse, none)
  | e :: rest, written =>
    let path := filepathJoin destDir e.name
    if insideDestDir destDir path then
      match e.typeflag with
      | TarType.dir => extractTarGzLoop destDir rest written
      | TarType.reg => extractTarGzLoop destDir rest (path :: written)
      | TarType.other => extractTarGzLoop destDir rest written
    else (written.reverse, some ("illegal file path: " ++ path))

/-- extractTarGz from the source, on an already decoded header list. -/
def extractTarGz (entries : List TarEntry) (destDir : String) :
    List String × Option String :=
  extractTarGzLoop destDir entries []

/-- Outcome of a session creation attempt, including the possibility of
a Go runtime panic raised by a failed single-value type assertion. -/
inductive SessResult where
  | sid : String → SessResult
  | errMsg : String → SessResult
  | panicked : SessResult

/-- Firefox createSession response handling from the source, applied to
the result of decoding the response body into a string-keyed map. The
outer Go type assertion of the value field to a map carries no ok
guard, so a missing or non-object value field raises a runtime panic,
modelled by the panicked constructor; only the final assertion of
sessionId to string is guarded. -/
def firefoxCreateSession (decoded : Except String (List (String × JVal))) : SessResult :=
  match decoded with
  | .error e => .errMsg ("failed to decode session response: " ++ e)
  | .ok fields =>
    match lookupJ fields "value" with
    | some (JVal.objV m) =>
      match lookupJ m "sessionId" with
      | some (JVal.strV s) => .sid s
      | _ => .errMsg "invalid session response format"
    | _ => .panicked

/-- WebKit createSession response handling from the source: both type
assertions carry an ok guard, so every malformed shape yields an error
value. -/
def webkitCreateSession (decoded : Except String (List (String × JVal))) : SessResult :=
  match decoded with
  | .error e => .errMsg ("failed to decode session response: " ++ e)
  | .ok fields =>
    match lookupJ fields "value" with
    | some (JVal.objV m) =>
      match lookupJ m "sessionId" with
      | some (JVal.strV s) => .sid s
      | _ => .errMsg "invalid session response format: sessionId not found"
    | _ => .errMsg "invalid session response format"

/-- Reply of the HTTP POST oracle: either a transport error or a
response carrying a status code. -/
inductive PostReply where
  | netErr : String → PostReply
  | reply : Nat → PostReply

/-- One HTTP POST request issued by OpenURL: the request URL and the
JSON payload marshalled for the body. -/
structure NavReq where
  url : String
  body : JVal

/-- Firefox OpenURL from the source: an empty session id fails before
any request; otherwise exactly one POST is issued against the session
url endpoint with the url payload, status 200 is success, and any other
status produces an error carrying the status code. The second component
lists the requests issued. -/
def firefoxOpenURL (sessionID url : String) (post : NavReq → PostReply) :
    Except String Unit × List NavReq :=
  if sessionID = "" then (.error "no active session, start Firefox first", [])
  else
    let req : NavReq :=
      { url := "http://localhost:4444/session/" ++ sessionID ++ "/url"
        body := JVal.objV [("url", JVal.strV url)] }
    match post req with
    | .netErr e => (.error ("failed to open URL: " ++ e), [req])
    | .reply status =>
      if status = 200 then (.ok (), [req])
      else (.error ("failed to navigate to URL, status code: " ++ toString status), [req])

/-- WebKit OpenURL from the source, structurally identical to the
Firefox variant up to the error message of the empty-session guard. -/
def webkitOpenURL (sessionID url : String) (post : NavReq → PostReply) :
    Except String Unit × List NavReq :=
  if sessionID = "" then (.error "no active session, start Safari first", [])
  else
    let req : NavReq :=
      { url := "http://localhost:4444/session/" ++ sessionID ++ "/url"
        body := JVal.objV [("url", JVal.strV url)] }
    match post req with
    | .netErr e => (.error ("failed to open URL: " ++ e), [req])
    | .reply status =>
      if status = 200 then (.ok (), [req])
      else (.error ("failed to navigate to URL, status code: " ++ toString status), [req])

/-- Child process state: alive until killed, reaped only by a wait
call. The repository never calls Wait on the spawned driver process, so
reaped stays false throughout its lifetime. -/
structure Proc where
  alive : Bool
  reaped : Bool

/-- POSIX kill on a child process as surfaced by the Go os package: the
signal succeeds as long as the process has not been reaped (a child
that was already killed but never waited for still accepts the signal);
only a reaped process yields the already-finished error. -/
def killProc (p : Proc) : Proc × Except String Unit :=
  if p.reaped then (p, .error "os: process already finished")
  else ({ p with alive := false }, .ok ())

/-- Firefox Close from the source: the child is killed only when both
the cmd field and its process handle are set (cmd is none when Launch
was never called, the inner option is none when starting the child
failed); the handle is never cleared and the child is never waited
for. Returns the new state and the call result. -/
def firefoxClose (cmd : Option (Option Proc)) :
    Option (Option Proc) × Except String Unit :=
  match cmd with
  | some (some p) =>
    let r := killProc p
    match r.2 with
    | .ok _ => (some (some r.1), .ok ())
    | .error e => (some (some r.1), .error ("failed to close Firefox: " ++ e))
  | c => (c, .ok ())

/-- WebKit Close from the source, identical to the Firefox variant up
to the error message. -/
def webkitClose (cmd : Option (Option Proc)) :
    Option (Option Proc) × Except String Unit :=
  match cmd with
  | some (some p) =>
    let r := killProc p
    match r.2 with
    | .ok _ => (some (some r.1), .ok ())
    | .error e => (some (some r.1), .error ("failed to close Safari WebDriver: " ++ e))
  | c => (c, .ok ())

/-- Events observable outside the process during driver installation:
inline HTTP GET requests against version registries, archive fetches by
downloadFile, writes of the final executable by copyFile, and
permission changes. -/
inductive Ev where
  | get : String → Ev
  | download : String → Ev
  | fileWrite : String → Ev
  | chmod : String → Nat → Ev

/-- Whether an event is an archive fetch. -/
def Ev.isDownload : Ev → Bool
  | .download _ => true
  | _ => false

/-- Whether an event is any network request (registry query or archive
fetch). -/
def Ev.isNet : Ev → Bool
  | .get _ => true
  | .download _ => true
  | _ => false

/-- Reply of the HTTP GET oracle for registry endpoints: a transport
error, or a response with status code and body. -/
inductive HttpReply where
  | netErr : String → HttpReply
  | reply : Nat → String → HttpReply

/-- Final permission mode of a path after a trace of events: copyFile
creates the destination with the default create mode, and chmod
replaces the mode. -/
def finalMode (evs : List Ev) (path : String) : Option Nat :=
  evs.foldl (fun acc ev =>
    match ev with
    | .fileWrite p => if p = path then some 0o666 else acc
    | .chmod p m => if p = path then some m else acc
    | _ => acc) none

/-- Environment of the Chrome driver installation flow: the local and
remote observations it can make, each mirroring one helper of the
source. -/
structure ChromeEnv where
  goos : String
  goarch : String
  /-- Result of getInstalledChromeVersion, the local browser probe. -/
  chromeVersion : Except String String
  /-- Reply of the LATEST_RELEASE registry endpoint. -/
  latestReply : HttpReply
  /-- Reply of the major-scoped LATEST_RELEASE endpoint, per major. -/
  latestForMajor : String → HttpReply
  /-- Result of getChromeDriverPath, the local path resolution. -/
  driverPath : Except String String
  /-- Whether a file already exists at the computed driver path. -/
  driverPathExists : Bool
  /-- Result of downloadFile on the archive URL. -/
  downloadRes : Except String Unit
  /-- Result of extracting the fetched archive. -/
  extractRes : Except String Unit
  /-- Result of copyFile onto the final install path. -/
  copyRes : Except String Unit
  /-- Result of the chmod call on the installed binary. -/
  chmodRes : Except String Unit

/-- getLatestChromeDriverVersion from the source: one GET against the
LATEST_RELEASE endpoint, status 200 required, body trimmed (bodies are
modelled as already trimmed). -/
def getLatestChromeDriverVersion (env : ChromeEnv) :
    Except String String × List Ev :=
  let ev := Ev.get "https://chromedriver.storage.googleapis.com/LATEST_RELEASE"
  match env.latestReply with
  | .netErr e => (.error e, [ev])
  | .reply status body =>
    if status = 200 then (.ok body, [ev])
    else (.error ("unexpected status code: " ++ toString status), [ev])

/-- The major version capture of the anchored regular expression
(digits followed by a literal dot) used by installChromeDriver. -/
def parseChromeMajor (v : String) : Option String :=
  let ds := v.data.takeWhile Char.isDigit
  match v.data.drop ds.length with
  | '.' :: _ => if ds = [] then none else some (String.mk ds)
  | _ => none

/-- Archive platform token per operating system and architecture, from
downloadAndInstallChromeDriver. -/
def chromePlatform (goos goarch : String) : Option String :=
  if goos = "darwin" then some (if goarch = "arm64" then "mac_arm64" else "mac64")
  else if goos = "linux" then some "linux64"
  else if goos = "windows" then some "win32"
  else none

/-- downloadAndInstallChromeDriver from the source: resolve the driver
version scoped to the given Chrome major version, build the platform
download URL, fetch and extract the archive into a scratch directory,
copy the binary to the install path, and set the executable bit on
non-Windows targets. -/
def downloadAndInstallChromeDriver (env : ChromeEnv) (major : String) :
    Except String Unit × List Ev :=
  let ev1 := Ev.get ("https://chromedriver.storage.googleapis.com/LATEST_RELEASE_" ++ major)
  match env.latestForMajor major with
  | .netErr e => (.error e, [ev1])
  | .reply status body =>
    if status ≠ 200 then
      (.error ("failed to get ChromeDriver version: status " ++ toString status), [ev1])
    else
      match chromePlatform env.goos env.goarch with
      | none => (.error ("unsupported OS: " ++ env.goos), [ev1])
      | some platform =>
        let downloadURL := "https://chromedriver.storage.googleapis.com/" ++ body
          ++ "/chromedriver_" ++ platform ++ ".zip"
        let ev2 := Ev.download downloadURL
        match env.downloadRes with
        | .error e => (.error ("download failed: " ++ e), [ev1, ev2])
        | .ok _ =>
          match env.driverPath with
          | .error e => (.error e, [ev1, ev2])
          | .ok driverPath =>
            match env.extractRes with
            | .error e => (.error ("extraction failed: " ++ e), [ev1, ev2])
            | .ok _ =>
              match env.copyRes with
              | .error e => (.error ("failed to install driver: " ++ e), [ev1, ev2])
              | .ok _ =>
                let ev3 := Ev.fileWrite driverPath
                if env.goos ≠ "windows" then
                  match env.chmodRes with
                  | .error e =>
                    (.error ("failed to make driver executable: " ++ e), [ev1, ev2, ev3])
                  | .ok _ => (.ok (), [ev1, ev2, ev3, Ev.chmod driverPath 0o755])
                else (.ok (), [ev1, ev2, ev3])

/-- installChromeDriver from the source: probe the installed Chrome
version (failing when the browser is absent), query the latest driver
release, parse the Chrome major version, resolve the install path, and
either accept an already present driver file or download and install
one scoped to the major version. -/
def installChromeDriver (env : ChromeEnv) : Except String Unit × List Ev :=
  match env.chromeVersion with
  | .error e => (.error ("failed to get installed Chrome version: " ++ e), [])
  | .ok installedVersion =>
    if installedVersion = "" then
      (.error "Chrome is not installed. Please install Chrome manually", [])
    else
      match getLatestChromeDriverVersion env with
      | (.error e, evs) => (.error ("failed to get latest Chrome driver version: " ++ e), evs)
      | (.ok _, evs) =>
        match parseChromeMajor installedVersion with
        | none => (.error ("failed to parse Chrome version: " ++ installedVersion), evs)
        | some major =>
          match env.driverPath with
          | .error e => (.error e, evs)
          | .ok _ =>
            if env.driverPathExists then (.ok (), evs)
            else
              let r := downloadAndInstallChromeDriver env major
              (r.1, evs ++ r.2)

/-- Result of the local geckodriver probe of the source: a parsed
version, a missing executable (an error whose text contains the
not-installed marker and is therefore tolerated), or any other probe
error. -/
inductive GeckoProbe where
  | found : String → GeckoProbe
  | notInstalled : GeckoProbe
  | otherErr : String → GeckoProbe

/-- Reply of the geckodriver releases API: a transport error, or a
response with status code and the decode result of its tag name field. -/
inductive GeckoLatestReply where
  | netErr : String → GeckoLatestReply
  | httpReply : Nat → Except String String → GeckoLatestReply

/-- Environment of the Firefox driver installation flow. The source
never probes for the Firefox browser itself, so the field recording
whether Firefox is installed is read by no definition below; it models
the state of the machine that the flow ignores. -/
structure GeckoEnv where
  goos : String
  goarch : String
  /-- Whether the Firefox browser is installed on the machine. -/
  firefoxInstalled : Bool
  /-- Result of getInstalledGeckoDriverVersion, the local driver probe. -/
  installedDriver : GeckoProbe
  /-- Reply of the releases latest API endpoint. -/
  latestReply : GeckoLatestReply
  /-- Result of getBinDirectory, the local install directory choice. -/
  binDir : String
  /-- Result of downloadFile on the archive URL. -/
  downloadRes : Except String Unit
  /-- Result of extracting the fetched archive. -/
  extractRes : Except String Unit
  /-- Result of copyFile onto the final install path. -/
  copyRes : Except String Unit
  /-- Result of the chmod call on the installed binary. -/
  chmodRes : Except String Unit

/-- Removal of a leading v from a release tag, as done by
installFirefoxDriver on the decoded tag name. -/
def stripLeadingV (t : String) : String :=
  match t.data with
  | 'v' :: rest => String.mk rest
  | _ => t

/-- getLatestGeckoDriverVersion from the source: one GET against the
GitHub releases API, status 200 required, tag name decoded from the
JSON body, leading v stripped. -/
def getLatestGeckoDriverVersion (env : GeckoEnv) :
    Except String String × List Ev :=
  let ev := Ev.get "https://api.github.com/repos/mozilla/geckodriver/releases/latest"
  match env.latestReply with
  | .netErr e => (.error e, [ev])
  | .httpReply status tag =>
    if status ≠ 200 then (.error ("unexpected status code: " ++ toString status), [ev])
    else
      match tag with
      | .error e => (.error e, [ev])
      | .ok t => (.ok (stripLeadingV t), [ev])

/-- Platform-specific geckodriver archive URL, from
downloadAndInstallGeckoDriver. -/
def geckoDownloadURL (goos goarch version : String) : Option String :=
  let base := "https://github.com/mozilla/geckodriver/releases/download/v" ++ version
    ++ "/geckodriver-v" ++ version
  if goos = "darwin" then
    some (base ++ (if goarch = "arm64" then "-macos-aarch64.tar.gz" else "-macos.tar.gz"))
  else if goos = "linux" then
    some (base ++ (if goarch = "arm64" then "-linux-aarch64.tar.gz" else "-linux64.tar.gz"))
  else if goos = "windows" then some (base ++ "-win64.zip")
  else none

/-- downloadAndInstallGeckoDriver from the source: build the platform
URL, fetch and extract the archive into a scratch directory, copy the
binary into the bin directory, and set the executable bit on
non-Windows targets. -/
def downloadAndInstallGeckoDriver (env : GeckoEnv) (version : String) :
    Except String Unit × List Ev :=
  match geckoDownloadURL env.goos env.goarch version with
  | none => (.error ("unsupported OS for Geckodriver installation: " ++ env.goos), [])
  | some url =>
    let ev1 := Ev.download url
    match env.downloadRes with
    | .error e => (.error ("download failed: " ++ e), [ev1])
    | .ok _ =>
      match env.extractRes with
      | .error e => (.error ("extraction failed: " ++ e), [ev1])
      | .ok _ =>
        let driverName := if env.goos = "windows" then "geckodriver.exe" else "geckodriver"
        let dst := filepathJoin env.binDir driverName
        match env.copyRes with
        | .error e => (.error ("failed to install driver: " ++ e), [ev1])
        | .ok _ =>
          let ev2 := Ev.fileWrite dst
          if env.goos ≠ "windows" then
            match env.chmodRes with
            | .error e => (.error ("failed to make driver executable: " ++ e), [ev1, ev2])
            | .ok _ => (.ok (), [ev1, ev2, Ev.chmod dst 0o755])
          else (.ok (), [ev1, ev2])

/-- installFirefoxDriver from the source: probe the installed
geckodriver (a missing driver is tolerated and treated as the empty
version), query the latest release, skip when the installed version
already equals the latest, and otherwise download and install. No step
consults the Firefox browser. -/
def installFirefoxDriver (env : GeckoEnv) : Except String Unit × List Ev :=
  match env.installedDriver with
  | .otherErr e => (.error ("failed to check installed Geckodriver: " ++ e), [])
  | probe =>
    let installedVersion := match probe with
      | .found v => v
      | _ => ""
    match getLatestGeckoDriverVersion env with
    | (.error e, evs) => (.error ("failed to get latest Geckodriver version: " ++ e), evs)
    | (.ok latest, evs) =>
      if installedVersion = latest then (.ok (), evs)
      else
        let r := downloadAndInstallGeckoDriver env latest
        match r.1 with
        | .error e => (.error ("failed to install Geckodriver: " ++ e), evs ++ r.2)
        | .ok _ => (.ok (), evs ++ r.2)

/-- Outcome of running the safaridriver enable command: success, a
failure whose combined output mentions administrator privileges (which
the source tolerates with a manual instruction), or any other failure. -/
inductive EnableOutcome where
  | enOk : EnableOutcome
  | enFailAdmin : EnableOutcome
  | enFailOther : String → EnableOutcome

/-- Environment of the WebKit driver installation flow. -/
structure WebkitEnv where
  goos : String
  /-- Whether safaridriver is found on the search path. -/
  safaridriverFound : Bool
  /-- Result of running safaridriver with the enable flag. -/
  enableOutcome : EnableOutcome

/-- installWebkitDriver from the source: on every operating system
other than darwin it prints a skip notice and succeeds immediately; on
darwin it requires safaridriver on the search path and runs the enable
command, tolerating a privileges failure. -/
def installWebkitDriver (env : WebkitEnv) : Except String Unit × List Ev :=
  if env.goos ≠ "darwin" then (.ok (), [])
  else if !env.safaridriverFound then
    (.error "safaridriver not found", [])
  else
    match env.enableOutcome with
    | .enOk => (.ok (), [])
    | .enFailAdmin => (.ok (), [])
    | .enFailOther e => (.error ("failed to enable Safari WebDriver: " ++ e), [])

/-- setup from the source: all three driver families are attempted in
order regardless of earlier outcomes, each failure is rendered with its
family label and collected, and the call fails exactly when the
collection is nonempty, reporting the issue count. Returns the overall
result and the collected per-family failure messages. -/
def setup (rc rf rw : Except String Unit) : Except String Unit × List String :=
  let errs :=
    (match rc with | .error e => ["Chrome driver: " ++ e] | .ok _ => []) ++
    (match rf with | .error e => ["Firefox driver: " ++ e] | .ok _ => []) ++
    (match rw with | .error e => ["Webkit driver: " ++ e] | .ok _ => [])
  if errs.length > 0 then
    (.error ("setup completed with " ++ toString errs.length ++ " issues"), errs)
  else (.ok (), errs)

/-- Run from the source, as the resulting process exit code: fewer than
two arguments or an unknown command exit with one; the setup command
exits with one exactly when setup returned an error, and otherwise
returns normally, exiting with zero. The argument list includes the
program name, and the setup outcome is passed in. -/
def Run (argv : List String) (setupRes : Except String Unit) : Nat :=
  match argv with
  | _ :: cmd :: _ =>
    if cmd = "setup" then
      match setupRes with
      | .error _ => 1
      | .ok _ => 0
    else 1
  | _ => 1

/-- Whether the owner executable permission bit of a POSIX file mode is
set. -/
def execBitSet (m : Nat) : Bool :=
  (m / 64) % 2 == 1

/-- Machine state for the Chrome flow: Chrome installed at version
120.0.6099.109, registry reachable, and a chromedriver binary already
present at the resolved install path. -/
def chromeEnvPresent : ChromeEnv :=
  { goos := "linux", goarch := "amd64"
    chromeVersion := .ok "120.0.6099.109"
    latestReply := .reply 200 "121.0.6167.85"
    latestForMajor := fun _ => .reply 200 "120.0.6099.71"
    driverPath := .ok "/usr/local/bin/chromedriver"
    driverPathExists := true
    downloadRes := .ok (), extractRes := .ok ()
    copyRes := .ok (), chmodRes := .ok () }

/-- The same machine state without a chromedriver binary at the install
path. -/
def chromeEnvAbsent : ChromeEnv :=
  { chromeEnvPresent with driverPathExists := false }

/-- The same machine state with the Chrome probe failing because the
browser is absent. -/
def chromeEnvNoBrowser : ChromeEnv :=
  { chromeEnvPresent with chromeVersion := .error "Chrome not found" }

/-- Machine state for the Firefox flow: no Firefox browser installed,
no geckodriver installed, registry reachable, downloads succeeding. -/
def geckoEnvNoFirefox : GeckoEnv :=
  { goos := "linux", goarch := "amd64"
    firefoxInstalled := false
    installedDriver := .notInstalled
    latestReply := .httpReply 200 (.ok "v0.34.0")
    binDir := "/usr/local/bin"
    downloadRes := .ok (), extractRes := .ok ()
    copyRes := .ok (), chmodRes := .ok () }

/-- The same machine state with a geckodriver already installed at the
latest version. -/
def geckoEnvUpToDate : GeckoEnv :=
  { geckoEnvNoFirefox with installedDriver := .found "0.34.0" }

example : filepathClean "/a/b/../c" = "/a/c" := by decide
example : filepathClean "a/../../b" = "../b" := by decide
example : filepathClean "" = "." := by decide
example : filepathClean "/" = "/" := by decide
example : filepathClean "a//b/" = "a/b" := by decide
example : filepathJoin "/opt/dest" "../../evil" = "/evil" := by decide
example : insideDestDir "/opt/dest" "/evil" = false := by decide
example : insideDestDir "/opt/dest" (filepathJoin "/opt/dest" "sub/x") = true := by decide
example : insideDestDir "/tmp/foo" (filepathJoin "/tmp/foo" "../foobar/x") = false := by decide

/-- Every file path written by the zip extraction loop either was in the
accumulator already or passed the traversal guard. -/
theorem extractZipLoop_written_inside (destDir : String) :
    ∀ (es : List ZipEntry) (acc : List String),
      (∀ p ∈ acc, insideDestDir destDir p = true) →
      ∀ p ∈ (extractZipLoop destDir es acc).1, insideDestDir destDir p = true := by
  intro es
  induction es with
  | nil =>
    intro acc hacc p hp
    simp only [extractZipLoop] at hp
    exact hacc p (List.mem_reverse.mp hp)
  | cons e rest ih =>
    intro acc hacc p hp
    simp only [extractZipLoop] at hp
    by_cases hg : insideDestDir destDir (filepathJoin destDir e.name) = true
    · rw [if_pos hg] at hp
      by_cases hd : e.isDir = true
      · rw [if_pos hd] at hp
        exact ih acc hacc p hp
      · rw [if_neg hd] at hp
        refine ih (filepathJoin destDir e.name :: acc) ?_ p hp
        intro q hq
        rcases List.mem_cons.mp hq with h | h
        · exact h ▸ hg
        · exact hacc q h
    · rw [if_neg hg] at hp
      exact hacc p (List.mem_reverse.mp hp)

/-- If some entry of a zip archive fails the traversal guard, the zip
extraction loop aborts with an error. -/
theorem extractZipLoop_bad_errors (destDir : String) :
    ∀ (es : List ZipEntry) (acc : List String),
      (∃ e ∈ es, insideDestDir destDir (filepathJoin destDir e.name) = false) →
      (extractZipLoop destDir es acc).2.isSome = true := by
  intro es
  induction es with
  | nil => intro acc h; simp at h
  | cons e rest ih =>
    rintro acc ⟨a, ha, hbad⟩
    simp only [extractZipLoop]
    by_cases hg : insideDestDir destDir (filepathJoin destDir e.name) = true
    · rw [if_pos hg]
      have harest : a ∈ rest := by
        rcases List.mem_cons.mp ha with h | h
        · exact absurd (h ▸ hg) (by rw [hbad]; simp)
        · exact h
      by_cases hd : e.isDir = true
      · rw [if_pos hd]
        exact ih acc ⟨a, harest, hbad⟩
      · rw [if_neg hd]
        exact ih (filepathJoin destDir e.name :: acc) ⟨a, harest, hbad⟩
    · rw [if_neg hg]
      rfl

/-- Every file path written by the tar extraction loop either was in the
accumulator already or passed the traversal guard. -/
theorem extractTarGzLoop_written_inside (destDir : String) :
    ∀ (es : List TarEntry) (acc : List String),
      (∀ p ∈ acc, insideDestDir destDir p = true) →
      ∀ p ∈ (extractTarGzLoop destDir es acc).1, insideDestDir destDir p = true := by
  intro es
  induction es with
  | nil =>
    intro acc hacc p hp
    simp only [extractTarGzLoop] at hp
    exact hacc p (List.mem_reverse.mp hp)
  | cons e rest ih =>
    intro acc hacc p hp
    simp only [extractTarGzLoop] at hp
    by_cases hg : insideDestDir destDir (filepathJoin destDir e.name) = true
    · rw [if_pos hg] at hp
      cases htf : e.typeflag with
      | dir =>
        rw [htf] at hp
        exact ih acc hacc p hp
      | other =>
        rw [htf] at hp
        exact ih acc hacc p hp
      | reg =>
        rw [htf] at hp
        refine ih (filepathJoin destDir e.name :: acc) ?_ p hp
        intro q hq
        rcases List.mem_cons.mp hq with h | h
        · exact h ▸ hg
        · exact hacc q h
    · rw [if_neg hg] at hp
      exact hacc p (List.mem_reverse.mp hp)

/-- If some entry of a tar archive fails the traversal guard, the tar
extraction loop aborts with an error. -/
theorem extractTarGzLoop_bad_errors (destDir : String) :
    ∀ (es : List TarEntry) (acc : List String),
      (∃ e ∈ es, insideDestDir destDir (filepathJoin destDir e.name) = false) →
      (extractTarGzLoop destDir es acc).2.isSome = true := by
  intro es
  induction es with
  | nil => intro acc h; simp at h
  | cons e rest ih =>
    rintro acc ⟨a, ha, hbad⟩
    simp only [extractTarGzLoop]
    by_cases hg : insideDestDir destDir (filepathJoin destDir e.name) = true
    · rw [if_pos hg]
      have harest : a ∈ rest := by
        rcases List.mem_cons.mp ha with h | h
        · exact absurd (h ▸ hg) (by rw [hbad]; simp)
        · exact h
      cases htf : e.typeflag with
      | dir => exact ih acc ⟨a, harest, hbad⟩
      | reg => exact ih (filepathJoin destDir e.name :: acc) ⟨a, harest, hbad⟩
      | other => exact ih acc ⟨a, harest, hbad⟩
    · rw [if_neg hg]
      rfl

/-- C1: for every zip and tar archive containing an entry whose joined
destination path fails the strictly-inside guard, extractZip and
extractTarGz return an error, every file path they did write satisfies
the guard (so no file is written outside the destination root), and in
particular the offending path of each bad entry is never among the
written files — the walk aborts before writing it. -/
theorem extract_traversal_safety
    (zs : List ZipEntry) (ts : List TarEntry) (destDir : String)
    (hz : ∃ e ∈ zs, insideDestDir destDir (filepathJoin destDir e.name) = false)
    (ht : ∃ e ∈ ts, insideDestDir destDir (filepathJoin destDir e.name) = false) :
    (extractZip zs destDir).2.isSome = true ∧
    (extractTarGz ts destDir).2.isSome = true ∧
    (∀ p ∈ (extractZip zs destDir).1, insideDestDir destDir p = true) ∧
    (∀ p ∈ (extractTarGz ts destDir).1, insideDestDir destDir p = true) ∧
    (∀ e ∈ zs, insideDestDir destDir (filepathJoin destDir e.name) = false →
        filepathJoin destDir e.name ∉ (extractZip zs destDir).1) ∧
    (∀ e ∈ ts, insideDestDir destDir (filepathJoin destDir e.name) = false →
        filepathJoin destDir e.name ∉ (extractTarGz ts destDir).1) := by
  have hwz := extractZipLoop_written_inside destDir zs [] (by intro p hp; simp at hp)
  have hwt := extractTarGzLoop_written_inside destDir ts [] (by intro p hp; simp at hp)
  refine ⟨extractZipLoop_bad_errors destDir zs [] hz,
          extractTarGzLoop_bad_errors destDir ts [] ht,
          hwz, hwt, ?_, ?_⟩
  · intro e _ hbad hin
    exact absurd (hwz _ hin) (by rw [hbad]; simp)
  · intro e _ hbad hin
    exact absurd (hwt _ hin) (by rw [hbad]; simp)

/-- Closed instance of the traversal safety theorem on the crafted
archives from the specification example. -/
theorem extract_traversal_safety_witness :
    (∃ e ∈ [ZipEntry.mk "../../evil" false],
        insideDestDir "/opt/dest" (filepathJoin "/opt/dest" e.name) = false) ∧
    (∃ e ∈ [TarEntry.mk "../../evil" TarType.reg],
        insideDestDir "/opt/dest" (filepathJoin "/opt/dest" e.name) = false) ∧
    (extractZip [ZipEntry.mk "../../evil" false] "/opt/dest").2.isSome = true ∧
    (extractTarGz [TarEntry.mk "../../evil" TarType.reg] "/opt/dest").2.isSome = true := by
  have hz : ∃ e ∈ [ZipEntry.mk "../../evil" false],
      insideDestDir "/opt/dest" (filepathJoin "/opt/dest" e.name) = false := by
    refine ⟨ZipEntry.mk "../../evil" false, by simp, by decide⟩
  have ht : ∃ e ∈ [TarEntry.mk "../../evil" TarType.reg],
      insideDestDir "/opt/dest" (filepathJoin "/opt/dest" e.name) = false := by
    refine ⟨TarEntry.mk "../../evil" TarType.reg, by simp, by decide⟩
  have h := extract_traversal_safety [ZipEntry.mk "../../evil" false]
    [TarEntry.mk "../../evil" TarType.reg] "/opt/dest" hz ht
  exact ⟨hz, ht, h.1, h.2.1⟩

/-- C2: OpenURL on a session client whose CreateSession never completed,
so that the stored session id is still the empty string, returns the
no-active-session SessionError immediately and issues zero network
requests, for both the Firefox and the WebKit variant and for every url
and every state of the network. -/
theorem openURL_emptySession_failFast (url : String) (post : NavReq → PostReply) :
    firefoxOpenURL "" url post = (.error "no active session, start Firefox first", []) ∧
    webkitOpenURL "" url post = (.error "no active session, start Safari first", []) :=
  ⟨rfl, rfl⟩

/-- C3 evaluation: on a session response whose value field is absent or
is not an object, the Firefox createSession path hits an unguarded Go
type assertion and panics instead of returning the invalid-session
error, while the WebKit path returns the error; when the nested
sessionId string is present both return it, and a present value object
without a sessionId string yields the error on both. -/
theorem createSession_parse_behavior :
    firefoxCreateSession (.ok []) = .panicked ∧
    firefoxCreateSession (.ok [("value", JVal.strV "oops")]) = .panicked ∧
    webkitCreateSession (.ok []) = .errMsg "invalid session response format" ∧
    webkitCreateSession (.ok [("value", JVal.strV "oops")])
      = .errMsg "invalid session response format" ∧
    firefoxCreateSession (.ok [("value", JVal.objV [("sessionId", JVal.strV "abc123")])])
      = .sid "abc123" ∧
    webkitCreateSession (.ok [("value", JVal.objV [("sessionId", JVal.strV "abc123")])])
      = .sid "abc123" ∧
    firefoxCreateSession (.ok [("value", JVal.objV [])])
      = .errMsg "invalid session response format" ∧
    webkitCreateSession (.ok [("value", JVal.objV [("sessionId", JVal.numV 7)])])
      = .errMsg "invalid session response format: sessionId not found" :=
  ⟨rfl, rfl, rfl, rfl, rfl, rfl, rfl, rfl⟩

/-- C4: on a client with a nonempty stored session id, OpenURL issues
exactly one POST against the session url endpoint with the url JSON
payload, succeeds exactly when the response status is 200, and on any
other status returns the navigation error carrying that status code;
for both the Firefox and the WebKit variant. -/
theorem openURL_roundTrip (sessionID url : String) (status : Nat)
    (h : sessionID ≠ "") :
    (firefoxOpenURL sessionID url (fun _ => .reply status)).2 =
      [{ url := "http://localhost:4444/session/" ++ sessionID ++ "/url"
         body := JVal.objV [("url", JVal.strV url)] }] ∧
    ((firefoxOpenURL sessionID url (fun _ => .reply status)).1 = .ok () ↔ status = 200) ∧
    (status ≠ 200 → (firefoxOpenURL sessionID url (fun _ => .reply status)).1 =
      .error ("failed to navigate to URL, status code: " ++ toString status)) ∧
    (webkitOpenURL sessionID url (fun _ => .reply status)).2 =
      [{ url := "http://localhost:4444/session/" ++ sessionID ++ "/url"
         body := JVal.objV [("url", JVal.strV url)] }] ∧
    ((webkitOpenURL sessionID url (fun _ => .reply status)).1 = .ok () ↔ status = 200) ∧
    (status ≠ 200 → (webkitOpenURL sessionID url (fun _ => .reply status)).1 =
      .error ("failed to navigate to URL, status code: " ++ toString status)) := by
  unfold firefoxOpenURL webkitOpenURL
  by_cases hs : status = 200 <;> simp [h, hs]

/-- Closed instance of the round trip theorem at the session id and url
of the specification example, with a mock always replying 200. -/
theorem openURL_roundTrip_witness :
    ("abc123" : String) ≠ "" ∧
    (firefoxOpenURL "abc123" "https://example.com" (fun _ => .reply 200)).1 = .ok () ∧
    (firefoxOpenURL "abc123" "https://example.com" (fun _ => .reply 200)).2 =
      [{ url := "http://localhost:4444/session/abc123/url"
         body := JVal.objV [("url", JVal.strV "https://example.com")] }] := by
  have h : ("abc123" : String) ≠ "" := by decide
  have hr := openURL_roundTrip "abc123" "https://example.com" 200 h
  exact ⟨h, hr.2.1.mpr rfl, hr.1⟩

/-- C9: Close is idempotent for both session client variants: closing a
never-launched session does nothing and succeeds, and closing again
after a previous Close killed the child also succeeds, because the
child is never waited for and so still accepts the kill signal. -/
theorem close_idempotent (p : Proc) (h : p.reaped = false) :
    firefoxClose none = (none, .ok ()) ∧
    webkitClose none = (none, .ok ()) ∧
    (firefoxClose (some (some p))).2 = .ok () ∧
    (firefoxClose (firefoxClose (some (some p))).1).2 = .ok () ∧
    (webkitClose (some (some p))).2 = .ok () ∧
    (webkitClose (webkitClose (some (some p))).1).2 = .ok () := by
  simp [firefoxClose, webkitClose, killProc, h]

/-- Closed instance of the idempotent close theorem on a live child
process. -/
theorem close_idempotent_witness :
    (Proc.mk true false).reaped = false ∧
    (firefoxClose (firefoxClose (some (some (Proc.mk true false)))).1).2 = .ok () ∧
    (webkitClose (webkitClose (some (some (Proc.mk true false)))).1).2 = .ok () := by
  have h := close_idempotent (Proc.mk true false) rfl
  exact ⟨rfl, h.2.2.2.1, h.2.2.2.2.2⟩

/-- C7: setup attempts all three driver families whatever the earlier
outcomes, so each failing family contributes its labelled message to
the aggregated report independently of the others, setup succeeds
exactly when all three families succeed, and the process exit code of
the setup command is zero exactly in that case. -/
theorem setup_aggregates_and_exit (rc rf rw : Except String Unit) :
    ((setup rc rf rw).1 = .ok () ↔ (rc = .ok () ∧ rf = .ok () ∧ rw = .ok ())) ∧
    (Run ["owl", "setup"] (setup rc rf rw).1 = 0 ↔
      (rc = .ok () ∧ rf = .ok () ∧ rw = .ok ())) ∧
    (∀ e, rc = .error e → ("Chrome driver: " ++ e) ∈ (setup rc rf rw).2) ∧
    (∀ e, rf = .error e → ("Firefox driver: " ++ e) ∈ (setup rc rf rw).2) ∧
    (∀ e, rw = .error e → ("Webkit driver: " ++ e) ∈ (setup rc rf rw).2) := by
  cases rc <;> cases rf <;> cases rw <;> simp [setup, Run]

/-- Closed instance of the aggregation theorem: with Chrome succeeding,
Firefox failing, and WebKit failing, both failure messages are in the
report and the exit code is one; with all three succeeding the exit
code is zero. -/
theorem setup_aggregates_and_exit_witness :
    (Except.error "boom" : Except String Unit) = .error "boom" ∧
    ("Firefox driver: " ++ "boom") ∈ (setup (.ok ()) (.error "boom") (.error "caput")).2 ∧
    ("Webkit driver: " ++ "caput") ∈ (setup (.ok ()) (.error "boom") (.error "caput")).2 ∧
    Run ["owl", "setup"] (setup (.ok ()) (.ok ()) (.ok ())).1 = 0 := by
  have h := setup_aggregates_and_exit (.ok ()) (.error "boom") (.error "caput")
  have hok := setup_aggregates_and_exit (.ok ()) (.ok ()) (.ok ())
  exact ⟨rfl, h.2.2.2.1 "boom" rfl, h.2.2.2.2 "caput" rfl,
    hok.2.1.mpr ⟨rfl, rfl, rfl⟩⟩

/-- C10: on every operating system other than darwin, the WebKit
install step succeeds immediately with no external activity, regardless
of whether safaridriver exists or what enabling it would do; hence when
the Chrome and Firefox families succeed, the whole setup flow exits
with code zero although no Safari driver was checked or provisioned. -/
theorem webkit_skip_nonDarwin (g : String) (found : Bool) (out : EnableOutcome)
    (rc rf : Except String Unit) (hg : g ≠ "darwin") :
    installWebkitDriver { goos := g, safaridriverFound := found, enableOutcome := out }
      = (.ok (), []) ∧
    (rc = .ok () → rf = .ok () →
      Run ["owl", "setup"]
        (setup rc rf
          (installWebkitDriver
            { goos := g, safaridriverFound := found, enableOutcome := out }).1).1 = 0) := by
  have hw : installWebkitDriver
      { goos := g, safaridriverFound := found, enableOutcome := out } = (.ok (), []) := by
    simp [installWebkitDriver, hg]
  refine ⟨hw, fun hc hf => ?_⟩
  subst hc hf
  rw [hw]
  simp [setup, Run]

/-- Closed instance of the skip theorem on linux with no safaridriver
present. -/
theorem webkit_skip_nonDarwin_witness :
    ("linux" : String) ≠ "darwin" ∧
    installWebkitDriver
      { goos := "linux", safaridriverFound := false, enableOutcome := .enOk }
      = (.ok (), []) ∧
    Run ["owl", "setup"]
      (setup (.ok ()) (.ok ())
        (installWebkitDriver
          { goos := "linux", safaridriverFound := false, enableOutcome := .enOk }).1).1
      = 0 := by
  have hg : ("linux" : String) ≠ "darwin" := by decide
  have h := webkit_skip_nonDarwin "linux" false .enOk (.ok ()) (.ok ()) hg
  exact ⟨hg, h.1, h.2 rfl rfl⟩

/-- When a driver file is already present at the resolved install path
(and the probe, registry, version parse, and path resolution succeed),
installChromeDriver returns success and its trace is exactly the one
latest-version registry request. -/
theorem installChromeDriver_present (cenv : ChromeEnv) (v M p b : String)
    (hv : cenv.chromeVersion = .ok v) (hne : v ≠ "")
    (hm : parseChromeMajor v = some M)
    (hl : cenv.latestReply = .reply 200 b)
    (hdp : cenv.driverPath = .ok p)
    (hpe : cenv.driverPathExists = true) :
    installChromeDriver cenv
      = (.ok (), [Ev.get "https://chromedriver.storage.googleapis.com/LATEST_RELEASE"]) := by
  simp [installChromeDriver, getLatestChromeDriverVersion, hv, hl, hm, hdp, hpe, hne]

/-- C5 counterexample: with Chrome installed and a chromedriver binary
already present at the computed install path, installChromeDriver does
return success, but its trace contains one network request (the
latest-version registry query issued before the presence check), not
zero network activity as claimed. -/
theorem ensure_present_network_counterexample :
    chromeEnvPresent.driverPathExists = true ∧
    (installChromeDriver chromeEnvPresent).1 = .ok () ∧
    (installChromeDriver chromeEnvPresent).2
      = [Ev.get "https://chromedriver.storage.googleapis.com/LATEST_RELEASE"] ∧
    ((installChromeDriver chromeEnvPresent).2.countP Ev.isNet) = 1 :=
  ⟨rfl, rfl, rfl, rfl⟩

/-- C5 amended: when a compatible driver is already present (Chrome: a
file exists at the computed install path; Firefox: the installed
geckodriver version equals the stripped latest tag), Ensure returns
success with no archive fetch, though it still performs the one
latest-version registry request; hence a second call with an unchanged
latest-version response — in particular the call after a successful
install, when the file exists — performs no archive fetch. -/
theorem ensure_skip_noArchiveFetch (cenv : ChromeEnv) (v M p b : String)
    (genv : GeckoEnv) (gv t : String)
    (hv : cenv.chromeVersion = .ok v) (hne : v ≠ "")
    (hm : parseChromeMajor v = some M)
    (hl : cenv.latestReply = .reply 200 b)
    (hdp : cenv.driverPath = .ok p)
    (hg1 : genv.installedDriver = .found gv)
    (hg2 : genv.latestReply = .httpReply 200 (.ok t))
    (hg3 : stripLeadingV t = gv) :
    (cenv.driverPathExists = true →
      installChromeDriver cenv
        = (.ok (), [Ev.get "https://chromedriver.storage.googleapis.com/LATEST_RELEASE"])) ∧
    installFirefoxDriver genv
      = (.ok (), [Ev.get "https://api.github.com/repos/mozilla/geckodriver/releases/latest"]) ∧
    ((installChromeDriver { cenv with driverPathExists := true }).2.countP Ev.isDownload) = 0 ∧
    ((installFirefoxDriver genv).2.countP Ev.isDownload) = 0 := by
  have hff : installFirefoxDriver genv
      = (.ok (), [Ev.get "https://api.github.com/repos/mozilla/geckodriver/releases/latest"]) := by
    have hge : getLatestGeckoDriverVersion genv
        = (.ok gv, [Ev.get "https://api.github.com/repos/mozilla/geckodriver/releases/latest"]) := by
      simp [getLatestGeckoDriverVersion, hg2, hg3]
    simp [installFirefoxDriver, hg1, hge]
  have hsecond : installChromeDriver { cenv with driverPathExists := true }
      = (.ok (), [Ev.get "https://chromedriver.storage.googleapis.com/LATEST_RELEASE"]) :=
    installChromeDriver_present _ v M p b hv hne hm hl hdp rfl
  refine ⟨fun hpe => installChromeDriver_present cenv v M p b hv hne hm hl hdp hpe,
    hff, ?_, ?_⟩
  · rw [hsecond]
    rfl
  · rw [hff]
    rfl

/-- Closed instance of the no-archive-fetch theorem on the concrete
machine states with the driver already present and up to date. -/
theorem ensure_skip_noArchiveFetch_witness :
    chromeEnvPresent.driverPathExists = true ∧
    installChromeDriver chromeEnvPresent
      = (.ok (), [Ev.get "https://chromedriver.storage.googleapis.com/LATEST_RELEASE"]) ∧
    installFirefoxDriver geckoEnvUpToDate
      = (.ok (), [Ev.get "https://api.github.com/repos/mozilla/geckodriver/releases/latest"]) ∧
    ((installFirefoxDriver geckoEnvUpToDate).2.countP Ev.isDownload) = 0 := by
  have h := ensure_skip_noArchiveFetch chromeEnvPresent "120.0.6099.109" "120"
    "/usr/local/bin/chromedriver" "121.0.6167.85" geckoEnvUpToDate "0.34.0" "v0.34.0"
    rfl (by decide) rfl rfl rfl rfl rfl rfl
  exact ⟨rfl, h.1 rfl, h.2.1, h.2.2.2⟩

/-- C6: with Chrome installed at a version of major M, no driver file
present, and all fetch and install steps succeeding, the Chrome flow
requests the driver release scoped to major version M, downloads the
archive at the version returned by that major-scoped endpoint (not the
overall latest), and leaves the installed file at the resolved install
path with mode 755, whose executable bit is set; on non-Windows
targets. -/
theorem chromeDriver_majorScoped_install (cenv : ChromeEnv)
    (v M p b ver plat : String)
    (hv : cenv.chromeVersion = .ok v) (hne : v ≠ "")
    (hm : parseChromeMajor v = some M)
    (hl : cenv.latestReply = .reply 200 b)
    (hdp : cenv.driverPath = .ok p)
    (hpe : cenv.driverPathExists = false)
    (hmv : cenv.latestForMajor M = .reply 200 ver)
    (hplat : chromePlatform cenv.goos cenv.goarch = some plat)
    (hwin : cenv.goos ≠ "windows")
    (hdl : cenv.downloadRes = .ok ()) (hex : cenv.extractRes = .ok ())
    (hcp : cenv.copyRes = .ok ()) (hch : cenv.chmodRes = .ok ()) :
    installChromeDriver cenv =
      (.ok (), [Ev.get "https://chromedriver.storage.googleapis.com/LATEST_RELEASE",
                Ev.get ("https://chromedriver.storage.googleapis.com/LATEST_RELEASE_" ++ M),
                Ev.download ("https://chromedriver.storage.googleapis.com/" ++ ver
                  ++ "/chromedriver_" ++ plat ++ ".zip"),
                Ev.fileWrite p, Ev.chmod p 0o755]) ∧
    finalMode (installChromeDriver cenv).2 p = some 0o755 ∧
    execBitSet 0o755 = true := by
  have hfull : installChromeDriver cenv =
      (.ok (), [Ev.get "https://chromedriver.storage.googleapis.com/LATEST_RELEASE",
                Ev.get ("https://chromedriver.storage.googleapis.com/LATEST_RELEASE_" ++ M),
                Ev.download ("https://chromedriver.storage.googleapis.com/" ++ ver
                  ++ "/chromedriver_" ++ plat ++ ".zip"),
                Ev.fileWrite p, Ev.chmod p 0o755]) := by
    simp [installChromeDriver, getLatestChromeDriverVersion,
      downloadAndInstallChromeDriver, hv, hl, hm, hdp, hpe, hmv, hplat,
      hwin, hdl, hex, hcp, hch, hne]
  refine ⟨hfull, ?_, rfl⟩
  rw [hfull]
  simp [finalMode]

/-- Closed instance of the major-scoped install theorem: Chrome at
version 120.0.6099.109 leads to a request against the endpoint scoped
to major 120 and an executable driver file at the install path. -/
theorem chromeDriver_majorScoped_install_witness :
    parseChromeMajor "120.0.6099.109" = some "120" ∧
    (installChromeDriver chromeEnvAbsent).1 = .ok () ∧
    Ev.get "https://chromedriver.storage.googleapis.com/LATEST_RELEASE_120"
      ∈ (installChromeDriver chromeEnvAbsent).2 ∧
    Ev.download
        "https://chromedriver.storage.googleapis.com/120.0.6099.71/chromedriver_linux64.zip"
      ∈ (installChromeDriver chromeEnvAbsent).2 ∧
    finalMode (installChromeDriver chromeEnvAbsent).2 "/usr/local/bin/chromedriver"
      = some 0o755 ∧
    execBitSet 0o755 = true := by
  have h := chromeDriver_majorScoped_install chromeEnvAbsent "120.0.6099.109" "120"
    "/usr/local/bin/chromedriver" "121.0.6167.85" "120.0.6099.71" "linux64"
    rfl (by decide) rfl rfl rfl rfl rfl rfl (by decide) rfl rfl rfl rfl
  refine ⟨rfl, ?_, ?_, ?_, h.2.1, h.2.2⟩
  · rw [h.1]
  · rw [h.1]; simp
  · rw [h.1]; simp

/-- C8 counterexample: on a machine without the Firefox browser, the
Firefox family flow nevertheless succeeds and installs geckodriver —
one archive fetch and a write of the driver binary — because the source
never probes for the browser; it does not fail with a browser-missing
error. -/
theorem geckodriver_installed_without_browser :
    geckoEnvNoFirefox.firefoxInstalled = false ∧
    (installFirefoxDriver geckoEnvNoFirefox).1 = .ok () ∧
    ((installFirefoxDriver geckoEnvNoFirefox).2.countP Ev.isDownload) = 1 ∧
    Ev.fileWrite "/usr/local/bin/geckodriver"
      ∈ (installFirefoxDriver geckoEnvNoFirefox).2 := by
  have h : installFirefoxDriver geckoEnvNoFirefox
      = (.ok (), [Ev.get "https://api.github.com/repos/mozilla/geckodriver/releases/latest",
          Ev.download "https://github.com/mozilla/geckodriver/releases/download/v0.34.0/geckodriver-v0.34.0-linux64.tar.gz",
          Ev.fileWrite "/usr/local/bin/geckodriver",
          Ev.chmod "/usr/local/bin/geckodriver" 0o755]) := rfl
  refine ⟨rfl, by rw [h], by rw [h]; rfl, by rw [h]; simp⟩

/-- C8 amended: only the Chrome family checks for its browser — a
failing Chrome probe, or a probe reporting no installation, makes
installChromeDriver fail with the corresponding browser-missing error
before any network or install activity — while the Firefox family
result is entirely independent of whether the Firefox browser is
installed. -/
theorem browser_check_chromeOnly (cenv : ChromeEnv) (e : String)
    (genv : GeckoEnv) (bviews : Bool) :
    (cenv.chromeVersion = .error e →
      installChromeDriver cenv
        = (.error ("failed to get installed Chrome version: " ++ e), [])) ∧
    (cenv.chromeVersion = .ok "" →
      installChromeDriver cenv
        = (.error "Chrome is not installed. Please install Chrome manually", [])) ∧
    installFirefoxDriver { genv with firefoxInstalled := bviews }
      = installFirefoxDriver genv := by
  refine ⟨fun h => ?_, fun h => ?_, ?_⟩
  · simp [installChromeDriver, h]
  · simp [installChromeDriver, h]
  · cases genv
    rfl

/-- Closed instance of the chrome-only browser check theorem: a machine
without Chrome makes the Chrome flow fail with an empty trace, and
toggling the Firefox browser state does not change the Firefox flow. -/
theorem browser_check_chromeOnly_witness :
    chromeEnvNoBrowser.chromeVersion = .error "Chrome not found" ∧
    installChromeDriver chromeEnvNoBrowser
      = (.error ("failed to get installed Chrome version: " ++ "Chrome not found"), []) ∧
    installFirefoxDriver { geckoEnvNoFirefox with firefoxInstalled := true }
      = installFirefoxDriver geckoEnvNoFirefox := by
  have h := browser_check_chromeOnly chromeEnvNoBrowser "Chrome not found"
    geckoEnvNoFirefox true
  exact ⟨rfl, h.1 rfl, h.2.2⟩
